import Mathlib

/-!
Verification of the Gas Price Adjustment Engine of the zkSync server
(`core/server/src/eth_sender/gas_adjuster`).

The repository snapshot contains the engine's test suite
(`gas_adjuster/tests.rs`) but not `gas_adjuster/mod.rs` itself, so the
engine (the `GasAdjuster` structure with `get_gas_price` and
`keep_updated`, and the `GasStatistics` sample window) is modelled from
the specification, and the pure test helpers (`scale_gas_limit`,
`increase_gas_price`) are translated directly from `tests.rs`.

Prices are unsigned 256-bit-range values; we embed them as `Nat`, with
explicit bounds (`< 2^256`) where the claims speak about overflow.
The floating-point scale factor `limit_scale_factor()` only ever enters
the computation as the pre-rounded integer percentage
`(limit_scale_factor() * 100.0).round()`, so the model takes that integer
percentage `scalePct` as a parameter (the bump factor's percentage is the
literal `115`).
-/

namespace GasAdjusterModel

/-- Modelled from the spec (§4.4, §3 `GasStatistics`, missing
`gas_adjuster/mod.rs`): the Sample Window, an ordered sequence of price
samples appended by every successful decision call and cleared by the
rescaling function (clear-after-rescale policy). -/
structure GasStatistics where
  samples : List Nat
  deriving Repr, DecidableEq

/-- Modelled from the spec (§4.4): `push` appends a sample; it never fails
and evicts nothing until the window is explicitly cleared. -/
def GasStatistics.add_sample (s : GasStatistics) (v : Nat) : GasStatistics :=
  ⟨s.samples ++ [v]⟩

/-- Modelled from the spec (§3 `GasAdjuster`, missing
`gas_adjuster/mod.rs`): the engine owns one `GasStatistics` instance and a
cached copy of the persisted price limit. -/
structure GasAdjuster where
  statistics : GasStatistics
  gasPriceLimit : Nat
  deriving Repr, DecidableEq

/-- Modelled from the spec (§7): failure of the blockchain client to
supply a current suggested price. -/
inductive ClientError where
  | quoteFailure
  deriving Repr, DecidableEq

/-- Modelled from the spec (§4.1, missing `gas_adjuster/mod.rs`): the
unclamped candidate price. With no previous price the candidate is the
network-suggested price; for a resubmission it is the maximum of the
network price and the previous price bumped by 15%, the bump computed as
integer multiply-then-truncating-divide (`p * 115 / 100`). -/
def candidate_price (network_price : Nat) (previous_price : Option Nat) : Nat :=
  match previous_price with
  | none => network_price
  | some p => max network_price (p * 115 / 100)

/-- Modelled from the spec (§4.1 steps 1–3, missing
`gas_adjuster/mod.rs`): the pure decision computation, clamping the
candidate to the current limit. -/
def decide_price (limit network_price : Nat) (previous_price : Option Nat) : Nat :=
  min (candidate_price network_price previous_price) limit

/-- Modelled from the spec (§4.1, §6, missing `gas_adjuster/mod.rs`):
`get_gas_price` consumes the blockchain client's quote (which may have
failed), decides a price, appends it to the sample window, and returns the
price together with the updated engine state. On a quote failure the
failure is propagated and the state is returned unchanged. -/
def get_gas_price (a : GasAdjuster) (quote : Except ClientError Nat)
    (previous_price : Option Nat) : Except ClientError Nat × GasAdjuster :=
  match quote with
  | .error e => (.error e, a)
  | .ok network_price =>
    let price := decide_price a.gasPriceLimit network_price previous_price
    (.ok price, { a with statistics := a.statistics.add_sample price })

/-- Translated from `tests.rs` (`scale_gas_limit`): scales a value by the
limit scale factor, using the pre-rounded integer percentage
`scale = (limit_scale_factor() * 100.0).round()`, here the parameter
`scalePct`: the result is `value * scalePct / 100` with truncating
division. -/
def scale_gas_limit (scalePct value : Nat) : Nat :=
  value * scalePct / 100

/-- Translated from `tests.rs` (`increase_gas_price` inside
`gas_price_limit_preservation`): increases the gas price value by 15%, as
`value * 115 / 100` with truncating division. -/
def increase_gas_price (value : Nat) : Nat :=
  value * 115 / 100

/-- Modelled from the spec (§4.2, missing `gas_adjuster/mod.rs`): the
rescaling function. If the sample window is empty this is a no-op;
otherwise the new limit is `floor(average(samples) * S)` computed as
truncating-average then integer multiply-then-truncating-divide by the
pre-rounded percentage, the new limit is persisted and cached, and the
window is cleared. The persisted store is modelled as the `Nat` it holds;
the result pairs the new engine state with the new persisted value. -/
def keep_updated (scalePct : Nat) (a : GasAdjuster) (stored : Nat) :
    GasAdjuster × Nat :=
  if a.statistics.samples.isEmpty then (a, stored)
  else
    let avg := a.statistics.samples.sum / a.statistics.samples.length
    let newLimit := scale_gas_limit scalePct avg
    (⟨⟨[]⟩, newLimit⟩, newLimit)

/-- A cycle's worth of decision calls, as performed by the source tests
(`gas_price_limit_scaling`, `gas_price_limit_preservation`): each call
passes the previously decided price as `previous_price` and a fixed
network quote; the decided price seeds the next call. Returns the final
decided price (the seed when `n = 0`) and the engine state. -/
def run_decisions (network_price : Nat) : Nat → Nat → GasAdjuster → Nat × GasAdjuster
  | prev, 0, a => (prev, a)
  | prev, n + 1, a =>
    match get_gas_price a (.ok network_price) (some prev) with
    | (.ok price, a') => run_decisions network_price price n a'
    | (.error _, a') => (prev, a')

/-- One rescale cycle of the source test `gas_price_limit_scaling`:
`nSamples` decision calls seeded with the current limit, then
`keep_updated`. -/
def run_cycle (scalePct nSamples network_price : Nat)
    (s : GasAdjuster × Nat) : GasAdjuster × Nat :=
  let a' := (run_decisions network_price s.1.gasPriceLimit nSamples s.1).2
  keep_updated scalePct a' s.2

/-- Iterated rescale cycles. -/
def run_cycles (scalePct nSamples network_price : Nat) :
    Nat → GasAdjuster × Nat → GasAdjuster × Nat
  | 0, s => s
  | k + 1, s =>
    run_cycles scalePct nSamples network_price k
      (run_cycle scalePct nSamples network_price s)

/-- The geometric limit schedule: `k` applications of
`scale_gas_limit scalePct` to the initial limit `L`. -/
def scale_iter (scalePct L : Nat) : Nat → Nat
  | 0 => L
  | k + 1 => scale_gas_limit scalePct (scale_iter scalePct L k)

/-! ## Helper lemmas -/

/-- When the network price is at or above the cached limit, the decision
is clamped to exactly the limit, whatever the previous price. -/
lemma decide_price_clamped (limit np : Nat) (prev : Option Nat)
    (h : limit ≤ np) : decide_price limit np prev = limit := by
  cases prev with
  | none => exact min_eq_right h
  | some p => exact min_eq_right (le_trans h (le_max_left _ _))

/-- A run of decision calls with the network price at or above the limit:
every decision returns the limit, the limit is appended to the window once
per call, and the cached limit is untouched. -/
lemma run_decisions_clamped (np : Nat) :
    ∀ (n prev : Nat) (a : GasAdjuster), a.gasPriceLimit ≤ np →
      run_decisions np prev n a =
        (if n = 0 then prev else a.gasPriceLimit,
         ⟨⟨a.statistics.samples ++ List.replicate n a.gasPriceLimit⟩,
          a.gasPriceLimit⟩) := by
  intro n
  induction n with
  | zero =>
    intro prev a h
    simp [run_decisions]
  | succ m ih =>
    intro prev a h
    have hp : decide_price a.gasPriceLimit np (some prev) = a.gasPriceLimit :=
      decide_price_clamped _ _ _ h
    simp only [run_decisions, get_gas_price, hp]
    rw [ih a.gasPriceLimit
      ⟨a.statistics.add_sample a.gasPriceLimit, a.gasPriceLimit⟩ h]
    simp [GasStatistics.add_sample, List.replicate_succ]

/-- Every decision call preserves the cached limit. -/
lemma get_gas_price_limit (a : GasAdjuster) (quote : Except ClientError Nat)
    (prev : Option Nat) :
    (get_gas_price a quote prev).2.gasPriceLimit = a.gasPriceLimit := by
  cases quote <;> rfl

/-- Any number of chained decision calls preserves the cached limit. -/
lemma run_decisions_limit (np : Nat) :
    ∀ (n prev : Nat) (a : GasAdjuster),
      (run_decisions np prev n a).2.gasPriceLimit = a.gasPriceLimit := by
  intro n
  induction n with
  | zero => intro prev a; rfl
  | succ m ih =>
    intro prev a
    simp only [run_decisions, get_gas_price]
    exact ih _ _

/-- Rescaling over a window of `n + 1` copies of `L`: the truncating
average is exactly `L`, so the new cached and persisted limit is
`scale_gas_limit scalePct L` and the window is cleared. -/
lemma keep_updated_replicate (scalePct L n stored : Nat) (a : GasAdjuster)
    (hs : a.statistics.samples = List.replicate (n + 1) L) :
    keep_updated scalePct a stored =
      (⟨⟨[]⟩, scale_gas_limit scalePct L⟩, scale_gas_limit scalePct L) := by
  unfold keep_updated
  rw [hs]
  have h1 : (List.replicate (n + 1) L).isEmpty = false := by
    rw [List.replicate_succ]; rfl
  have h2 : (List.replicate (n + 1) L).sum = (n + 1) * L := by
    simp [List.sum_replicate, smul_eq_mul]
  have h3 : (List.replicate (n + 1) L).length = n + 1 :=
    List.length_replicate _ _
  simp only [h1, h2, h3, Bool.false_eq_true, if_false]
  rw [Nat.mul_div_cancel_left L (Nat.succ_pos n)]

/-- Shifting the starting point of the geometric limit schedule. -/
lemma scale_iter_shift (scalePct L k : Nat) :
    scale_iter scalePct (scale_gas_limit scalePct L) k =
      scale_iter scalePct L (k + 1) := by
  induction k with
  | zero => rfl
  | succ m ih => simp [scale_iter, ih]

/-- Iterated clamped rescale cycles follow the geometric schedule: with an
empty window, a cached limit `L`, at least one sample per cycle, and a
network price dominating every intermediate limit, `k` cycles leave the
cached and persisted limits at `scale_iter scalePct L k`. -/
lemma run_cycles_clamped (scalePct np : Nat) :
    ∀ (k nSamples L stored : Nat), 1 ≤ nSamples →
      (∀ j, j < k → scale_iter scalePct L j ≤ np) →
      run_cycles scalePct nSamples np k (⟨⟨[]⟩, L⟩, stored) =
        (⟨⟨[]⟩, scale_iter scalePct L k⟩,
          if k = 0 then stored else scale_iter scalePct L k) := by
  intro k
  induction k with
  | zero =>
    intro nSamples L stored hn hb
    simp [run_cycles, scale_iter]
  | succ m ih =>
    intro nSamples L stored hn hb
    obtain ⟨ns, rfl⟩ : ∃ ns, nSamples = ns + 1 :=
      ⟨nSamples - 1, (Nat.succ_pred_eq_of_pos hn).symm⟩
    have hL : (⟨⟨[]⟩, L⟩ : GasAdjuster).gasPriceLimit ≤ np :=
      hb 0 (Nat.succ_pos m)
    have hcycle : run_cycle scalePct (ns + 1) np (⟨⟨[]⟩, L⟩, stored) =
        (⟨⟨[]⟩, scale_gas_limit scalePct L⟩, scale_gas_limit scalePct L) := by
      unfold run_cycle
      rw [run_decisions_clamped np (ns + 1) _ _ hL]
      exact keep_updated_replicate scalePct L ns stored _ (by simp)
    have hb' : ∀ j, j < m →
        scale_iter scalePct (scale_gas_limit scalePct L) j ≤ np := by
      intro j hj
      rw [scale_iter_shift]
      exact hb (j + 1) (Nat.succ_lt_succ hj)
    have := ih (ns + 1) (scale_gas_limit scalePct L)
      (scale_gas_limit scalePct L) hn hb'
    simp only [run_cycles, hcycle, this]
    cases m with
    | zero => simp [scale_iter]
    | succ m' => simp [scale_iter_shift]

/-! ## Claims -/

/-- C1: for every network price and every previous price, a decision call
with a previous price returns
`min(limit, max(network_price, floor(previous_price * 1.15)))`, where the
15% bump uses truncating (floor) division; in particular
`decide_price(100, Some(130))` with an unbounded limit returns `149`,
never `150`. -/
theorem C1_bump_formula :
    (∀ limit np p : Nat, decide_price limit np (some p) =
        min limit (max np (p * 115 / 100)))
    ∧ ∀ limit : Nat, 149 ≤ limit → decide_price limit 100 (some 130) = 149 := by
  constructor
  · intro limit np p
    simp [decide_price, candidate_price, min_comm]
  · intro limit h
    show min (max 100 (130 * 115 / 100)) limit = 149
    norm_num [min_eq_left h]

/-- Witness for C1 at a concrete unbounded limit. -/
theorem C1_bump_formula_witness :
    149 ≤ 1000000 ∧ decide_price 1000000 100 (some 130) = 149 :=
  ⟨by norm_num, C1_bump_formula.2 1000000 (by norm_num)⟩

/-- C2: whenever the candidate price (network price, or the bumped
previous price) exceeds the current limit, the decision returns exactly
the limit — including when both the network price and the previous price
are above the limit. -/
theorem C2_clamp :
    (∀ limit np : Nat, ∀ prev : Option Nat,
        limit < candidate_price np prev → decide_price limit np prev = limit)
    ∧ decide_price 1000 2000 (some 2000) = 1000 := by
  constructor
  · intro limit np prev h
    exact min_eq_right (le_of_lt h)
  · decide

/-- Witness for C2 at a concrete clamped input. -/
theorem C2_clamp_witness :
    1000 < candidate_price 1001 none ∧ decide_price 1000 1001 none = 1000 :=
  ⟨by decide, C2_clamp.1 1000 1001 none (by decide)⟩

/-- C3: if every decision in a rescale cycle is clamped to the current
limit `L` (the window holds `n + 1` copies of `L`), `keep_updated` sets
the persisted (and cached) limit to `floor(L * S)` exactly; and when the
network price persistently dominates the limit, this compounds
geometrically across consecutive cycles, `k` cycles ending at
`scale_iter scalePct L k`. -/
theorem C3_rescaling_convergence :
    (∀ scalePct L n stored : Nat, ∀ a : GasAdjuster,
        a.statistics.samples = List.replicate (n + 1) L →
        keep_updated scalePct a stored =
          (⟨⟨[]⟩, scale_gas_limit scalePct L⟩, scale_gas_limit scalePct L))
    ∧ ∀ scalePct np k nSamples L stored : Nat, 1 ≤ nSamples →
        (∀ j, j < k → scale_iter scalePct L j ≤ np) →
        run_cycles scalePct nSamples np k (⟨⟨[]⟩, L⟩, stored) =
          (⟨⟨[]⟩, scale_iter scalePct L k⟩,
            if k = 0 then stored else scale_iter scalePct L k) := by
  constructor
  · intro scalePct L n stored a hs
    exact keep_updated_replicate scalePct L n stored a hs
  · intro scalePct np k nSamples L stored hn hb
    exact run_cycles_clamped scalePct np k nSamples L stored hn hb

/-- Witness for C3: a single rescale over a window of three copies of the
limit 1000 yields 1500 at scale percentage 150; and the source test
scenario (limit 1000, network price 1000000 far above it) with three
samples per cycle and five cycles compounds
1000 → 1500 → 2250 → 3375 → 5062 → 7593. -/
theorem C3_rescaling_convergence_witness :
    keep_updated 150 ⟨⟨List.replicate 3 1000⟩, 1000⟩ 777 =
        (⟨⟨[]⟩, 1500⟩, 1500)
    ∧ run_cycles 150 3 1000000 5 (⟨⟨[]⟩, 1000⟩, 1000) =
        (⟨⟨[]⟩, 7593⟩, 7593) := by
  constructor
  · have h := C3_rescaling_convergence.1 150 1000 2 777
      ⟨⟨List.replicate 3 1000⟩, 1000⟩ rfl
    rw [h]
    rfl
  · have h := C3_rescaling_convergence.2 150 1000000 5 3 1000 1000
      (by norm_num) (by decide)
    rw [h]
    rfl

/-- C4: with a nonempty window, `keep_updated` sets the limit to
`floor(average(used_prices) * S)` with the average computed by truncating
integer division — whether or not the cycle hit the limit — and the new
limit may be lower than the prior limit (non-monotonicity, shown at a
window of prices far below a prior limit of 10000). -/
theorem C4_rescaling_average :
    (∀ scalePct stored : Nat, ∀ a : GasAdjuster,
        a.statistics.samples ≠ [] →
        (keep_updated scalePct a stored).2 =
          scale_gas_limit scalePct
            (a.statistics.samples.sum / a.statistics.samples.length))
    ∧ (keep_updated 150 ⟨⟨[10, 11]⟩, 10000⟩ 10000).2 < 10000 := by
  constructor
  · intro scalePct stored a ha
    unfold keep_updated
    simp [List.isEmpty_iff, ha]
  · decide

/-- Witness for C4 at a concrete nonempty window: samples 10 and 12
average (truncating) to 11, scaled by 150% to 16. -/
theorem C4_rescaling_average_witness :
    (⟨⟨[10, 12]⟩, 10000⟩ : GasAdjuster).statistics.samples ≠ [] ∧
      (keep_updated 150 ⟨⟨[10, 12]⟩, 10000⟩ 10000).2 = 16 := by
  refine ⟨by decide, ?_⟩
  have h := C4_rescaling_average.1 150 10000 ⟨⟨[10, 12]⟩, 10000⟩ (by decide)
  rw [h]
  rfl

/-- C5: with no previous price (a first-attempt send) and a limit at or
above the network price, the decision returns exactly the network price,
including a zero network price. -/
theorem C5_initial_price :
    (∀ limit np : Nat, np ≤ limit → decide_price limit np none = np)
    ∧ ∀ limit : Nat, decide_price limit 0 none = 0 := by
  constructor
  · intro limit np h
    exact min_eq_left h
  · intro limit
    simp [decide_price, candidate_price]

/-- Witness for C5 at a concrete first-attempt input. -/
theorem C5_initial_price_witness :
    13 ≤ 1000 ∧ decide_price 1000 13 none = 13 :=
  ⟨by decide, C5_initial_price.1 1000 13 (by decide)⟩

/-- C6: the decision computation is total and safe on degenerate inputs:
`decide_price(0, Some(0)) = 0` (no underflow); the result never exceeds
the limit, so it always fits the 256-bit range the limit lives in (no
overflow); a previous price at the numeric maximum `2^256 - 1` is handled
and clamped; and with a successful quote `get_gas_price` always returns a
decided price, never a failure. -/
theorem C6_zero_safety :
    (∀ limit : Nat, decide_price limit 0 (some 0) = 0)
    ∧ (∀ limit np p : Nat, decide_price limit np (some p) ≤ limit)
    ∧ decide_price (2 ^ 256 - 1) (2 ^ 256 - 1) (some (2 ^ 256 - 1)) =
        2 ^ 256 - 1
    ∧ ∀ (a : GasAdjuster) (np : Nat) (prev : Option Nat),
        (get_gas_price a (.ok np) prev).1 =
          Except.ok (decide_price a.gasPriceLimit np prev) := by
  refine ⟨?_, ?_, ?_, ?_⟩
  · intro limit
    simp [decide_price, candidate_price]
  · intro limit np p
    exact min_le_right _ _
  · decide
  · intro a np prev
    rfl

/-- C7: the test helpers scale prices as exact integer
multiply-then-truncating-divide by a pre-rounded integer percentage
(`value * scalePct / 100` for the limit scale factor, `value * 115 / 100`
for the 15% bump), and the results agree with the rational
`floor(value * S)` formulation. -/
theorem C7_integer_scaling :
    ∀ value scalePct : Nat,
      scale_gas_limit scalePct value = value * scalePct / 100
      ∧ scale_gas_limit scalePct value =
          Nat.floor ((value : ℚ) * scalePct / 100)
      ∧ increase_gas_price value = Nat.floor ((value : ℚ) * (115 / 100)) := by
  intro value scalePct
  refine ⟨?_, ?_, ?_⟩
  · rfl
  · rw [show ((value : ℚ) * scalePct / 100) =
        ((value * scalePct : ℕ) : ℚ) / ((100 : ℕ) : ℚ) by push_cast; ring]
    rw [Nat.floor_div_eq_div]
    rfl
  · rw [show ((value : ℚ) * (115 / 100)) =
        ((value * 115 : ℕ) : ℚ) / ((100 : ℕ) : ℚ) by push_cast; ring]
    rw [Nat.floor_div_eq_div]
    rfl

/-- C8: `keep_updated` with an empty sample window is a no-op: both the
cached engine state and the persisted limit are unchanged. -/
theorem C8_empty_noop :
    ∀ (scalePct stored : Nat) (a : GasAdjuster),
      a.statistics.samples = [] →
      keep_updated scalePct a stored = (a, stored) := by
  intro scalePct stored a h
  unfold keep_updated
  simp [h]

/-- Witness for C8 at a concrete empty-window engine. -/
theorem C8_empty_noop_witness :
    keep_updated 150 ⟨⟨[]⟩, 5⟩ 7 = (⟨⟨[]⟩, 5⟩, 7) :=
  C8_empty_noop 150 7 ⟨⟨[]⟩, 5⟩ rfl

/-- C9: when the blockchain client fails to supply a quote,
`get_gas_price` returns that failure and the engine state — sample window
and cached limit alike — is returned unchanged; no price is decided. -/
theorem C9_quote_failure :
    ∀ (a : GasAdjuster) (prev : Option Nat) (e : ClientError),
      get_gas_price a (.error e) prev = (.error e, a) := by
  intro a prev e
  rfl

/-- C10: the cached limit is written only by rescaling: a decision call
never changes it, any number of chained decision calls never changes it,
and a run of clamped decisions (network price at or above the limit) all
return that same limit value. -/
theorem C10_limit_only_rescaled :
    (∀ (a : GasAdjuster) (quote : Except ClientError Nat)
        (prev : Option Nat),
        (get_gas_price a quote prev).2.gasPriceLimit = a.gasPriceLimit)
    ∧ (∀ (np n prev : Nat) (a : GasAdjuster),
        (run_decisions np prev n a).2.gasPriceLimit = a.gasPriceLimit)
    ∧ ∀ (np n prev : Nat) (a : GasAdjuster),
        a.gasPriceLimit ≤ np → 1 ≤ n →
        (run_decisions np prev n a).1 = a.gasPriceLimit := by
  refine ⟨get_gas_price_limit, ?_, ?_⟩
  · intro np n prev a
    exact run_decisions_limit np n prev a
  · intro np n prev a h hn
    rw [run_decisions_clamped np n prev a h]
    simp [Nat.pos_iff_ne_zero.mp hn]

/-- Witness for C10 at a concrete clamped run: two decisions at limit 50
with network price 100 both return 50. -/
theorem C10_limit_only_rescaled_witness :
    (50 ≤ 100 ∧ 1 ≤ 2) ∧ (run_decisions 100 2 7 ⟨⟨[]⟩, 50⟩).1 = 50 :=
  ⟨⟨by decide, by decide⟩,
    C10_limit_only_rescaled.2.2 100 2 7 ⟨⟨[]⟩, 50⟩ (by decide) (by decide)⟩

end GasAdjusterModel
